import Mathlib

/-!
Shallow embedding of `packages/python/plotly/plotly/express/_imshow.py`.

Numeric values that are Python ints/floats are modelled as `ℚ` (the float
arithmetic in this file — comparisons against 1.05, 255·1.05, … — is exact on
the decimal literals involved, so `ℚ` is a faithful model for the claims
below).  Possibly non-finite float entries are modelled by `PyFloat`.
-/

/-- The numpy element storage types (dtypes) relevant to `_imshow.py`. -/
inductive NpDtype where
  | int8 | uint8 | int16 | uint16 | int32 | uint32 | int64 | uint64
  | float32 | float64
  | bool_
deriving DecidableEq, Repr

/-- Membership of `img.dtype.type` in the `_integer_types` tuple
(`np.byte, np.ubyte, np.short, np.ushort, np.intc, np.uintc, np.int_,
np.uint, np.longlong, np.ulonglong`, lines 16-27): on the usual platforms
those aliases cover exactly the fixed-width signed/unsigned integer types.
This `in` check uses equality and behaves as intended, unlike line 230. -/
def isIntegerType : NpDtype → Bool
  | .int8 | .uint8 | .int16 | .uint16 | .int32 | .uint32 | .int64 | .uint64 => true
  | _ => false

/-- `_integer_ranges[t][1] = np.iinfo(t).max` (line 28): the maximum
representable value of a fixed-width integer dtype. -/
def integerMax : NpDtype → ℚ
  | .int8 => 127
  | .uint8 => 255
  | .int16 => 32767
  | .uint16 => 65535
  | .int32 => 2 ^ 31 - 1
  | .uint32 => 2 ^ 32 - 1
  | .int64 => 2 ^ 63 - 1
  | .uint64 => 2 ^ 64 - 1
  | _ => 0

/-- A Python float value: finite (modelled as a rational) or non-finite.
`np.isfinite` is false exactly on the last three constructors. -/
inductive PyFloat where
  | finite (q : ℚ)
  | nan
  | posInf
  | negInf
deriving DecidableEq, Repr

/-- `img[np.isfinite(img)]` (line 55): the list of finite values of the array. -/
def finiteVals (data : List PyFloat) : List ℚ :=
  data.filterMap fun v => match v with
    | .finite q => some q
    | _ => none

/-- numpy reduction `.max()` over a 1-d array, `none` when the array is empty
(numpy raises on an empty reduction). -/
def listMax : List ℚ → Option ℚ
  | [] => none
  | x :: xs => some (match listMax xs with
      | none => x
      | some m => max x m)

/-- numpy reduction `.min()` over a 1-d array, `none` when empty. -/
def listMin : List ℚ → Option ℚ
  | [] => none
  | x :: xs => some (match listMin xs with
      | none => x
      | some m => min x m)

/-- `img.max()` for a 2-d array: maximum over all entries. -/
def npMax2D (img : List (List ℚ)) : Option ℚ := listMax img.flatten

/-- `img.min()` for a 2-d array: minimum over all entries. -/
def npMin2D (img : List (List ℚ)) : Option ℚ := listMin img.flatten

/-- A Python value passed for `zmin`/`zmax`: `None`, a scalar
(`np.isscalar` true), or an iterable of numbers. -/
inductive PyZ where
  | none
  | scalar (q : ℚ)
  | list (l : List ℚ)
deriving DecidableEq, Repr

/-- Python `str` of a rational entry as used in `%`-formatting. -/
def pyNumStr (q : ℚ) : String := toString q

/-- Python `str(z)` of a zmin/zmax value (list rendering `[a, b, ...]`). -/
def pyStr : PyZ → String
  | .none => "None"
  | .scalar q => pyNumStr q
  | .list l => "[" ++ String.intercalate ", " (l.map pyNumStr) ++ "]"

/-- The `ValueError` message raised by `_vectorize_zvalue` (lines 43-46). -/
def vectorizeErrMsg (z : PyZ) : String :=
  "zmax can be a scalar, or an iterable of length 1, 3 or 4. " ++
    "A value of " ++ pyStr z ++ " was passed for zmax."

/-- `_vectorize_zvalue` (lines 31-46): `None` passes through; a scalar `z`
gives `[z]*3 + [1]`; a length-1 iterable gives `list(z)*3 + [1]`; length 3
appends `[1]`; length 4 passes through unchanged; any other length raises
`ValueError`. -/
def vectorize_zvalue : PyZ → Except String (Option (List ℚ))
  | .none => .ok none
  | .scalar q => .ok (some [q, q, q, 1])
  | .list l =>
    if l.length = 1 then .ok (some (l ++ l ++ l ++ [1]))
    else if l.length = 3 then .ok (some (l ++ [1]))
    else if l.length = 4 then .ok (some l)
    else .error (vectorizeErrMsg (.list l))

/-- The tolerance `rtol = 1.05` of `_infer_zmax_from_type` (line 51). -/
def rtol : ℚ := 1.05

/-- `_infer_zmax_from_type` (lines 49-63): for an integer dtype, the maximum
representable value of the dtype; otherwise the maximum finite value of the array
is bucketed against `1, 255, 65535` with 5% tolerance, `2**32` as fallback.
The max of an empty (all-non-finite) selection is a numpy error. -/
def infer_zmax_from_type (dtype : NpDtype) (data : List PyFloat) :
    Except String ℚ :=
  if isIntegerType dtype then .ok (integerMax dtype)
  else
    match listMax (finiteVals data) with
    | none => .error "zero-size array to reduction operation maximum"
    | some im_max =>
      .ok (if im_max ≤ 1 * rtol then 1
           else if im_max ≤ 255 * rtol then 255
           else if im_max ≤ 65535 * rtol then 65535
           else 2 ^ 32)

/-- Line 230, `img.dtype is not np.uint8`: a Python `is` (object identity)
comparison between `img.dtype` — a `numpy.dtype` *instance* — and `np.uint8`
— the scalar *type class*.  A dtype instance is never the same object as the
type class, so this identity test is `True` for every dtype, uint8 included
(the equality test `img.dtype == np.uint8` would behave differently). -/
def dtype_is_not_np_uint8 (_dt : NpDtype) : Bool := true

/-- The `go.Image` trace fields set by the multichannel branch (line 233):
the vectorized `zmin` and `zmax` (either may be absent). -/
structure ImageTrace where
  zmin : Option (List ℚ)
  zmax : Option (List ℚ)
deriving DecidableEq, Repr

/-- The multichannel (`img.ndim == 3 and img.shape[-1] in [3, 4]`) branch of
`imshow`, lines 229-233: infer `zmax` when it is `None` and the dtype
identity test of line 230 holds, then vectorize `zmin` and `zmax` (in that order, as the
tuple assignment on line 232 evaluates) and attach them to the trace. -/
def imshowMulti (dtype : NpDtype) (data : List PyFloat)
    (zmin zmax : PyZ) : Except String ImageTrace :=
  let zmaxStep : Except String PyZ :=
    if zmax = PyZ.none ∧ dtype_is_not_np_uint8 dtype = true then
      match infer_zmax_from_type dtype data with
      | .ok v => .ok (PyZ.scalar v)
      | .error e => .error e
    else .ok zmax
  match zmaxStep with
  | .error e => .error e
  | .ok zmax1 =>
    match vectorize_zvalue zmin with
    | .error e => .error e
    | .ok zminV =>
      match vectorize_zvalue zmax1 with
      | .error e => .error e
      | .ok zmaxV => .ok ⟨zminV, zmaxV⟩

/-- Python `str` of a shape tuple, e.g. `(4, 5, 2)`, `(7,)`. -/
def pyTupleStr (shape : List ℕ) : String :=
  "(" ++ String.intercalate ", " (shape.map toString) ++
    (if shape.length = 1 then ",)" else ")")

/-- The `ValueError` message of lines 238-241. -/
def shapeErrMsg (shape : List ℕ) : String :=
  "px.imshow only accepts 2D single-channel, RGB or RGBA images. " ++
    "An image of shape " ++ pyTupleStr shape ++ " was provided"

/-- Which trace `imshow` builds. -/
inductive TraceKind where
  | heatmap
  | image
deriving DecidableEq, Repr

/-- The shape dispatch of `imshow` (lines 205, 229, 237-241): 2-d arrays go
to a `Heatmap` trace, 3-d arrays with trailing dimension 3 or 4 to an `Image`
trace, anything else raises `ValueError` embedding the shape. -/
def imshowDispatch (shape : List ℕ) : Except String TraceKind :=
  if shape.length = 2 then .ok .heatmap
  else if shape.length = 3 ∧ (shape.getLast? = some 3 ∨ shape.getLast? = some 4)
    then .ok .image
  else .error (shapeErrMsg shape)

/-- Lines 200-202: `if img.dtype == np.bool: img = 255 * img.astype(np.uint8)`.
`astype(np.uint8)` maps `False ↦ 0`, `True ↦ 1`; the multiplication is uint8
arithmetic (mod 256, though no overflow occurs here). -/
def bool_to_uint8 (img : List (List Bool)) : List (List ℕ) :=
  img.map fun row => row.map fun b => (255 * (if b then 1 else 0)) % 256

/-- A label override dict, `None` or an association list with unique keys. -/
abbrev Labels := Option (List (String × String))

/-- Lines 186-192: `if labels is not None:` look up the keys `x`, `y`,
`color` and override the corresponding names.  For a plain (non-xarray)
array `x_label`/`y_label` start out unbound (`none`) and `z_name = ""`. -/
def applyLabels (labels : Labels) (x0 y0 : Option String) (z0 : String) :
    Option String × Option String × String :=
  match labels with
  | none => (x0, y0, z0)
  | some l =>
    ((match l.lookup "x" with | some v => some v | none => x0),
     (match l.lookup "y" with | some v => some v | none => y0),
     (match l.lookup "color" with | some v => v | none => z0))

/-- Lines 213-217: fill a missing end of the `zmin`/`zmax` pair from the
observed data extrema, then `range_color = range_color or [zmin, zmax]`
(Python `or`: a non-empty `range_color` list wins).  Result: the
`(cmin, cmax)` pair put into the coloraxis (lines 223-224), `none` = unset. -/
def resolveRange2D (img : List (List ℚ)) (zmin zmax : Option ℚ)
    (range_color : Option (ℚ × ℚ)) : Except String (Option ℚ × Option ℚ) :=
  let step1 : Except String (Option ℚ × Option ℚ) :=
    if zmin.isSome ∧ zmax = none then
      match npMax2D img with
      | some v => .ok (zmin, some v)
      | none => .error "zero-size array to reduction operation maximum"
    else .ok (zmin, zmax)
  match step1 with
  | .error e => .error e
  | .ok (zmin1, zmax1) =>
    let step2 : Except String (Option ℚ × Option ℚ) :=
      if zmax1.isSome ∧ zmin1 = none then
        match npMin2D img with
        | some v => .ok (some v, zmax1)
        | none => .error "zero-size array to reduction operation minimum"
      else .ok (zmin1, zmax1)
    match step2 with
    | .error e => .error e
    | .ok (zmin2, zmax2) =>
      match range_color with
      | some (a, b) => .ok (some a, some b)
      | none => .ok (zmin2, zmax2)

/-- The `coloraxis1` layout entry of the 2-d branch (lines 218-226). -/
structure Coloraxis where
  cmin : Option ℚ
  cmax : Option ℚ
  cmid : Option ℚ
  colorbar_title : String
deriving DecidableEq, Repr

/-- `yaxis.autorange` of the 2-d branch (line 207):
`True if origin == "lower" else "reversed"`. -/
inductive Autorange where
  | true_
  | reversed
deriving DecidableEq, Repr

/-- The figure data produced by the 2-d (`Heatmap`) branch of `imshow`
(lines 205-226) that the claims are about. -/
structure Fig2D where
  yaxis_autorange : Autorange
  coloraxis : Coloraxis
deriving DecidableEq, Repr

/-- The 2-d branch of `imshow` (lines 205-226) for a plain (non-xarray)
array: resolve the display range and build the coloraxis layout, with the
colorbar title taken from the `color` label. -/
def imshow2D (img : List (List ℚ)) (zmin zmax : Option ℚ)
    (origin : Option String) (labels : Labels)
    (range_color : Option (ℚ × ℚ)) (cmid : Option ℚ) :
    Except String Fig2D :=
  let z_name := (applyLabels labels none none "").2.2
  let autorange : Autorange :=
    if origin = some "lower" then .true_ else .reversed
  match resolveRange2D img zmin zmax range_color with
  | .error e => .error e
  | .ok (cmin, cmax) =>
    .ok ⟨autorange, ⟨cmin, cmax, cmid, z_name⟩⟩

/-- Heap of numpy arrays for the frame-effect claim: an array is a dtype tag
plus its (flattened) payload; boolean entries are stored as 0/1. -/
structure PyArray where
  dtype : NpDtype
  vals : List ℤ
deriving DecidableEq, Repr

/-- A heap: arrays addressed by allocation index. -/
abbrev Heap := List PyArray

/-- Allocate a fresh array on the heap, returning its address. -/
def heapAlloc (h : Heap) (a : PyArray) : Heap × ℕ := (h ++ [a], h.length)

/-- `img.astype(np.uint8)` returns a *newly allocated* array (numpy `astype`
copies by default); bool payloads 0/1 are unchanged by the conversion. -/
def astype_uint8_copy (a : PyArray) : PyArray :=
  ⟨.uint8, a.vals.map fun v => v % 256⟩

/-- Lines 198-202 with allocation made explicit: `np.asanyarray` returns the
argument itself for an ndarray (no copy); for a boolean array,
`img.astype(np.uint8)` allocates a copy and `255 * _` allocates the product
(uint8 arithmetic); the local name `img` is rebound to the new address and
the array owned by the caller is never written. -/
def imshow_normalize (h : Heap) (r : ℕ) : Heap × ℕ :=
  match h[r]? with
  | none => (h, r)
  | some a =>
    if a.dtype = NpDtype.bool_ then
      let (h1, r1) := heapAlloc h (astype_uint8_copy a)
      match h1[r1]? with
      | none => (h1, r1)
      | some c =>
        heapAlloc h1 ⟨.uint8, c.vals.map fun v => (255 * v) % 256⟩
    else (h, r)

/-- Modelled from the spec (refinement side of C4, stated in the words of
the spec, for comparison with `infer_zmax_from_type`): the smallest of
`1, 255, 65535, 2**32` that is at least the observed maximum, with a 5%
tolerance. -/
def spec_smallest_bucket (m : ℚ) : Option ℚ :=
  ([1, 255, 65535, 2 ^ 32] : List ℚ).find? fun b => m ≤ b * rtol


theorem rtol_eq : rtol = 21 / 20 := by norm_num [rtol]

theorem vectorize_zvalue_ok_shape (z : PyZ) (r : Option (List ℚ))
    (h : vectorize_zvalue z = .ok r) :
    (z = PyZ.none → r = none) ∧
    (z ≠ PyZ.none → ∃ l, r = some l ∧ l.length = 4) := by
  cases z with
  | none =>
    refine ⟨fun _ => ?_, fun hz => absurd rfl hz⟩
    simpa [vectorize_zvalue] using h.symm
  | scalar q =>
    refine ⟨(fun hz => nomatch hz), fun _ => ?_⟩
    refine ⟨[q, q, q, 1], ?_, rfl⟩
    simpa [vectorize_zvalue] using h.symm
  | list l =>
    refine ⟨(fun hz => nomatch hz), fun _ => ?_⟩
    by_cases h1 : l.length = 1
    · refine ⟨l ++ l ++ l ++ [1], ?_, by simp [h1]⟩
      simp [vectorize_zvalue, h1] at h
      simp [h.symm, List.append_assoc]
    · by_cases h3 : l.length = 3
      · refine ⟨l ++ [1], ?_, by simp [h3]⟩
        simp [vectorize_zvalue, h1, h3] at h
        exact h.symm
      · by_cases h4 : l.length = 4
        · refine ⟨l, ?_, h4⟩
          simp [vectorize_zvalue, h1, h3, h4] at h
          exact h.symm
        · simp [vectorize_zvalue, h1, h3, h4] at h

/-- C1: the claim says that for a 3- or 4-channel uint8 array with `zmax`
unset, no default maximum intensity is inferred and `zmax` stays `None`.
Evaluating the code at such an input shows the opposite: the dtype identity
test of line 230 is true even for uint8, so `zmax` is inferred (255 for
uint8) and the trace carries `zmax = [255, 255, 255, 1]`, not `None`. -/
theorem C1_code_eval :
    dtype_is_not_np_uint8 NpDtype.uint8 = true ∧
    imshowMulti NpDtype.uint8
        [PyFloat.finite 1, PyFloat.finite 2, PyFloat.finite 3]
        PyZ.none PyZ.none
      = .ok ⟨none, some [255, 255, 255, 1]⟩ :=
  ⟨rfl, rfl⟩

/-- C5: `_vectorize_zvalue` maps a scalar or single-element value to all 3
color channels with alpha fixed at 1, appends full opacity to a 3-element
value, passes a 4-element value through unchanged, and raises a
`ValueError` exactly for every other length, with a message that states the
offending value and the accepted lengths. -/
theorem C5_thm :
    (∀ q : ℚ, vectorize_zvalue (PyZ.scalar q) = .ok (some [q, q, q, 1]))
    ∧ (∀ a : ℚ, vectorize_zvalue (PyZ.list [a]) = .ok (some [a, a, a, 1]))
    ∧ (∀ l : List ℚ, l.length = 3 →
        vectorize_zvalue (PyZ.list l) = .ok (some (l ++ [1])))
    ∧ (∀ l : List ℚ, l.length = 4 →
        vectorize_zvalue (PyZ.list l) = .ok (some l))
    ∧ (∀ l : List ℚ, ¬(l.length = 1 ∨ l.length = 3 ∨ l.length = 4) →
        vectorize_zvalue (PyZ.list l) = .error (vectorizeErrMsg (PyZ.list l)))
    ∧ (∀ (l : List ℚ) (e : String), vectorize_zvalue (PyZ.list l) = .error e →
        ¬(l.length = 1 ∨ l.length = 3 ∨ l.length = 4) ∧
        e = "zmax can be a scalar, or an iterable of length 1, 3 or 4. " ++
          "A value of " ++ pyStr (PyZ.list l) ++ " was passed for zmax.") := by
  refine ⟨fun q => rfl, fun a => rfl, ?_, ?_, ?_, ?_⟩
  · intro l h3
    simp [vectorize_zvalue, h3]
  · intro l h4
    simp [vectorize_zvalue, h4]
  · intro l hbad
    push_neg at hbad
    obtain ⟨h1, h3, h4⟩ := hbad
    simp [vectorize_zvalue, h1, h3, h4]
  · intro l e h
    by_cases h1 : l.length = 1
    · simp [vectorize_zvalue, h1] at h
    · by_cases h3 : l.length = 3
      · simp [vectorize_zvalue, h1, h3] at h
      · by_cases h4 : l.length = 4
        · simp [vectorize_zvalue, h1, h3, h4] at h
        · simp only [vectorize_zvalue, h1, h3, h4, if_false] at h
          refine ⟨by tauto, ?_⟩
          cases h
          rfl

/-- C3: counterexample to the claim that both final `zmin` and `zmax`
vectors attached to the image trace always have exactly 4 elements: for a
3-channel uint8 input with neither `zmin` nor `zmax` supplied, the trace
carries no `zmin` vector at all (`None` is passed through). -/
theorem C3_counterexample :
    imshowMulti NpDtype.uint8
        [PyFloat.finite 1, PyFloat.finite 2, PyFloat.finite 3]
        PyZ.none PyZ.none
      = .ok ⟨none, some [255, 255, 255, 1]⟩ ∧
    (ImageTrace.zmin ⟨none, some [255, 255, 255, 1]⟩).isSome = false :=
  ⟨rfl, rfl⟩

/-- C3 (amended): whenever the multichannel branch succeeds, the attached
`zmax` vector always has exactly 4 elements (it is always present, since a
missing `zmax` is inferred and then vectorized, with alpha defaulted to 1);
the attached `zmin` vector has exactly 4 elements whenever `zmin` was
supplied, while an unsupplied `zmin` stays unset. -/
theorem C3_amended_thm :
    ∀ (dtype : NpDtype) (data : List PyFloat) (zmin zmax : PyZ)
      (t : ImageTrace),
      imshowMulti dtype data zmin zmax = .ok t →
      (∃ l, t.zmax = some l ∧ l.length = 4) ∧
      (zmin ≠ PyZ.none → ∃ l, t.zmin = some l ∧ l.length = 4) ∧
      (zmin = PyZ.none → t.zmin = none) := by
  intro dtype data zmin zmax t h
  simp only [imshowMulti, dtype_is_not_np_uint8, and_true] at h
  by_cases hz : zmax = PyZ.none
  · rw [if_pos hz] at h
    cases hi : infer_zmax_from_type dtype data with
    | error e => rw [hi] at h; cases h
    | ok v =>
      rw [hi] at h
      cases hmin : vectorize_zvalue zmin with
      | error e => rw [hmin] at h; cases h
      | ok zminV =>
        rw [hmin] at h
        simp only [vectorize_zvalue] at h
        cases h
        have hsh := vectorize_zvalue_ok_shape zmin zminV hmin
        exact ⟨⟨[v, v, v, 1], rfl, rfl⟩, hsh.2, fun he => hsh.1 he⟩
  · rw [if_neg hz] at h
    cases hmin : vectorize_zvalue zmin with
    | error e => rw [hmin] at h; cases h
    | ok zminV =>
      rw [hmin] at h
      dsimp only at h
      cases hmax : vectorize_zvalue zmax with
      | error e => rw [hmax] at h; cases h
      | ok zmaxV =>
        rw [hmax] at h
        cases h
        have hsh := vectorize_zvalue_ok_shape zmin zminV hmin
        have hshx := (vectorize_zvalue_ok_shape zmax zmaxV hmax).2 hz
        exact ⟨hshx, hsh.2, fun he => hsh.1 he⟩

/-- C3 witness: the amended theorem applied at a concrete input with both
`zmin` and `zmax` supplied. -/
theorem C3_amended_witness :
    imshowMulti NpDtype.uint16 [] (PyZ.scalar 2) (PyZ.list [0, 0, 0, 0])
      = .ok ⟨some [2, 2, 2, 1], some [0, 0, 0, 0]⟩ ∧
    (∃ l, (ImageTrace.zmax ⟨some [2, 2, 2, 1], some [0, 0, 0, 0]⟩) = some l ∧
      l.length = 4) ∧
    (∃ l, (ImageTrace.zmin ⟨some [2, 2, 2, 1], some [0, 0, 0, 0]⟩) = some l ∧
      l.length = 4) := by
  have h := C3_amended_thm NpDtype.uint16 [] (PyZ.scalar 2)
    (PyZ.list [0, 0, 0, 0]) ⟨some [2, 2, 2, 1], some [0, 0, 0, 0]⟩ rfl
  exact ⟨rfl, h.1, h.2.1 (fun he => nomatch he)⟩

/-- C5 witness: the theorem applied at the inputs named by the claim:
scalar 5, [1,2,3], [1,2,3,4] and [1,2]. -/
theorem C5_witness :
    vectorize_zvalue (PyZ.scalar 5) = .ok (some [5, 5, 5, 1]) ∧
    vectorize_zvalue (PyZ.list [1, 2, 3]) = .ok (some [1, 2, 3, 1]) ∧
    vectorize_zvalue (PyZ.list [1, 2, 3, 4]) = .ok (some [1, 2, 3, 4]) ∧
    vectorize_zvalue (PyZ.list [1, 2])
      = .error (vectorizeErrMsg (PyZ.list [1, 2])) := by
  refine ⟨C5_thm.1 5, ?_, C5_thm.2.2.2.1 [1, 2, 3, 4] rfl, ?_⟩
  · have h := C5_thm.2.2.1 [1, 2, 3] rfl
    simpa using h
  · exact C5_thm.2.2.2.2.1 [1, 2] (by decide)

theorem spec_smallest_bucket_eq (m : ℚ) :
    spec_smallest_bucket m =
      (if m ≤ 1 * rtol then some 1
       else if m ≤ 255 * rtol then some 255
       else if m ≤ 65535 * rtol then some 65535
       else if m ≤ 2 ^ 32 * rtol then some (2 ^ 32)
       else none) := by
  simp only [spec_smallest_bucket, List.find?]
  by_cases h1 : m ≤ rtol <;> by_cases h2 : m ≤ 255 * rtol <;>
    by_cases h3 : m ≤ 65535 * rtol <;> by_cases h4 : m ≤ 2 ^ 32 * rtol <;>
    simp [h1, h2, h3, h4]

/-- C4: `_infer_zmax_from_type` returns the maximum representable value of
the dtype for every fixed-width integer dtype (65535 for uint16), and for
floating-point data returns the smallest of 1, 255, 65535, 2^32 that is at
least the maximum finite value present, with a 5% tolerance (observed max
0.98 infers 1; observed max 200 infers 255). -/
theorem C4_thm :
    (∀ (dt : NpDtype) (data : List PyFloat), isIntegerType dt = true →
      infer_zmax_from_type dt data = .ok (integerMax dt))
    ∧ integerMax NpDtype.uint16 = 65535
    ∧ (∀ (dt : NpDtype) (data : List PyFloat) (m b : ℚ),
        isIntegerType dt = false → listMax (finiteVals data) = some m →
        spec_smallest_bucket m = some b →
        infer_zmax_from_type dt data = .ok b)
    ∧ infer_zmax_from_type NpDtype.float64 [PyFloat.finite (98 / 100)] = .ok 1
    ∧ infer_zmax_from_type NpDtype.float64 [PyFloat.finite 200] = .ok 255 := by
  refine ⟨?_, rfl, ?_, ?_, ?_⟩
  · intro dt data hdt
    simp [infer_zmax_from_type, hdt]
  · intro dt data m b hdt hmax hb
    rw [spec_smallest_bucket_eq] at hb
    simp only [infer_zmax_from_type, hdt, Bool.false_eq_true, if_false, hmax]
    split_ifs at hb ⊢ with h1 h2 h3 h4 <;> cases hb <;> rfl
  · norm_num [infer_zmax_from_type, finiteVals, listMax, rtol_eq, isIntegerType]
  · norm_num [infer_zmax_from_type, finiteVals, listMax, rtol_eq, isIntegerType]

/-- C4 witness: the theorem applied at a uint16 array and at a float array
with maximum finite value 3 (non-finite entries are ignored). -/
theorem C4_witness :
    infer_zmax_from_type NpDtype.uint16 [] = .ok 65535 ∧
    infer_zmax_from_type NpDtype.float32 [PyFloat.finite 3, PyFloat.nan]
      = .ok 255 := by
  constructor
  · have h := C4_thm.1 NpDtype.uint16 [] rfl
    simpa using h
  · exact C4_thm.2.2.1 NpDtype.float32 [PyFloat.finite 3, PyFloat.nan] 3 255
      rfl rfl (by norm_num [spec_smallest_bucket, rtol_eq, List.find?])

theorem resolveRange2D_range_color (img : List (List ℚ))
    (zmin zmax : Option ℚ) (c d : ℚ) (p : Option ℚ × Option ℚ)
    (h : resolveRange2D img zmin zmax (some (c, d)) = .ok p) :
    p = (some c, some d) := by
  simp only [resolveRange2D] at h
  repeat' split at h
  all_goals try cases h
  all_goals rfl

theorem imshow2D_ok (img : List (List ℚ)) (zmin zmax : Option ℚ)
    (o : Option String) (lab : Labels) (rc : Option (ℚ × ℚ))
    (cmid : Option ℚ) (fig : Fig2D)
    (h : imshow2D img zmin zmax o lab rc cmid = .ok fig) :
    ∃ p, resolveRange2D img zmin zmax rc = .ok p ∧
      fig = ⟨(if o = some "lower" then .true_ else .reversed),
        ⟨p.1, p.2, cmid, (applyLabels lab none none "").2.2⟩⟩ := by
  simp only [imshow2D] at h
  cases hr : resolveRange2D img zmin zmax rc with
  | error e => rw [hr] at h; cases h
  | ok p =>
    rw [hr] at h
    cases p
    cases h
    exact ⟨_, rfl, rfl⟩

/-- C2: counterexample to the claimed priority order: with both `zmin = 2`
and `zmax = 5` given explicitly AND `range_color = [0, 10]` supplied, the
coloraxis gets `cmin = 0, cmax = 10` from `range_color` — the explicit
`zmin`/`zmax` are NOT used, because line 217
(`range_color = range_color or [zmin, zmax]`) lets `range_color` win. -/
theorem C2_counterexample :
    imshow2D [[(0 : ℚ), 1]] (some 2) (some 5) none none (some (0, 10)) none
      = .ok ⟨.reversed, ⟨some 0, some 10, none, ""⟩⟩ ∧
    ¬((some (0 : ℚ)) = some 2 ∧ (some (10 : ℚ)) = some 5) := by
  refine ⟨rfl, ?_⟩
  rintro ⟨h, -⟩
  cases h

/-- C2 (amended): display range resolution for 2-d arrays in the priority
order the code implements: (1) a provided (non-empty) `range_color` pair is
always used as `cmin`/`cmax`, overriding `zmin`/`zmax`; when `range_color`
is absent: (2) both `zmin` and `zmax` given are used as is; (3) when only
one is given the other is filled from the observed array maximum/minimum;
(4) when neither is given both ends stay unset (renderer auto-scales). -/
theorem C2_amended_thm :
    (∀ (img : List (List ℚ)) (zmin zmax : Option ℚ) (o : Option String)
       (lab : Labels) (c d : ℚ) (cmid : Option ℚ) (fig : Fig2D),
      imshow2D img zmin zmax o lab (some (c, d)) cmid = .ok fig →
      fig.coloraxis.cmin = some c ∧ fig.coloraxis.cmax = some d)
    ∧ (∀ (img : List (List ℚ)) (a b : ℚ) (o : Option String) (lab : Labels)
       (cmid : Option ℚ),
      imshow2D img (some a) (some b) o lab none cmid
        = .ok ⟨(if o = some "lower" then .true_ else .reversed),
            ⟨some a, some b, cmid, (applyLabels lab none none "").2.2⟩⟩)
    ∧ (∀ (img : List (List ℚ)) (a M : ℚ) (o : Option String) (lab : Labels)
       (cmid : Option ℚ), npMax2D img = some M →
      imshow2D img (some a) none o lab none cmid
        = .ok ⟨(if o = some "lower" then .true_ else .reversed),
            ⟨some a, some M, cmid, (applyLabels lab none none "").2.2⟩⟩)
    ∧ (∀ (img : List (List ℚ)) (b m' : ℚ) (o : Option String) (lab : Labels)
       (cmid : Option ℚ), npMin2D img = some m' →
      imshow2D img none (some b) o lab none cmid
        = .ok ⟨(if o = some "lower" then .true_ else .reversed),
            ⟨some m', some b, cmid, (applyLabels lab none none "").2.2⟩⟩)
    ∧ (∀ (img : List (List ℚ)) (o : Option String) (lab : Labels)
       (cmid : Option ℚ),
      imshow2D img none none o lab none cmid
        = .ok ⟨(if o = some "lower" then .true_ else .reversed),
            ⟨none, none, cmid, (applyLabels lab none none "").2.2⟩⟩) := by
  refine ⟨?_, ?_, ?_, ?_, ?_⟩
  · intro img zmin zmax o lab c d cmid fig h
    obtain ⟨p, hp, hfig⟩ := imshow2D_ok img zmin zmax o lab (some (c, d))
      cmid fig h
    have hpv := resolveRange2D_range_color img zmin zmax c d p hp
    subst hfig
    rw [hpv]
    exact ⟨rfl, rfl⟩
  · intro img a b o lab cmid
    rfl
  · intro img a M o lab cmid hM
    simp [imshow2D, resolveRange2D, hM]
  · intro img b m' o lab cmid hm
    simp [imshow2D, resolveRange2D, hm]
  · intro img o lab cmid
    rfl

/-- C2 witness: the amended theorem applied at a concrete call where
`range_color` overrides the explicit `zmin`/`zmax`. -/
theorem C2_amended_witness :
    imshow2D [[(3 : ℚ)]] (some 2) (some 5) none none (some (0, 10)) none
      = .ok ⟨.reversed, ⟨some 0, some 10, none, ""⟩⟩ ∧
    (Fig2D.coloraxis ⟨.reversed, ⟨some 0, some 10, none, ""⟩⟩).cmin = some 0 ∧
    (Fig2D.coloraxis ⟨.reversed, ⟨some 0, some 10, none, ""⟩⟩).cmax = some 10 := by
  refine ⟨rfl, ?_⟩
  exact C2_amended_thm.1 [[(3 : ℚ)]] (some 2) (some 5) none none 0 10 none
    ⟨.reversed, ⟨some 0, some 10, none, ""⟩⟩ rfl

/-- C6: for a 2-d array with only `zmin` given (no `zmax`, no
`range_color`) the resolved display range is `[zmin, array.max()]`;
symmetrically, with only `zmax` given, the missing `zmin` is filled from
the observed array minimum. -/
theorem C6_thm :
    (∀ (img : List (List ℚ)) (a M : ℚ) (o : Option String) (lab : Labels)
       (cmid : Option ℚ), npMax2D img = some M →
      ∃ fig, imshow2D img (some a) none o lab none cmid = .ok fig ∧
        fig.coloraxis.cmin = some a ∧ fig.coloraxis.cmax = some M)
    ∧ (∀ (img : List (List ℚ)) (b m' : ℚ) (o : Option String) (lab : Labels)
       (cmid : Option ℚ), npMin2D img = some m' →
      ∃ fig, imshow2D img none (some b) o lab none cmid = .ok fig ∧
        fig.coloraxis.cmin = some m' ∧ fig.coloraxis.cmax = some b) := by
  constructor
  · intro img a M o lab cmid hM
    refine ⟨⟨(if o = some "lower" then .true_ else .reversed),
      ⟨some a, some M, cmid, (applyLabels lab none none "").2.2⟩⟩, ?_, rfl, rfl⟩
    simp [imshow2D, resolveRange2D, hM]
  · intro img b m' o lab cmid hm
    refine ⟨⟨(if o = some "lower" then .true_ else .reversed),
      ⟨some m', some b, cmid, (applyLabels lab none none "").2.2⟩⟩, ?_, rfl, rfl⟩
    simp [imshow2D, resolveRange2D, hm]

/-- C6 witness: the theorem applied with `zmin = 10` on an array with
maximum 7, and with `zmax = 3` on an array with minimum 2. -/
theorem C6_witness :
    (∃ fig, imshow2D [[(7 : ℚ)]] (some 10) none none none none none
        = .ok fig ∧
      fig.coloraxis.cmin = some 10 ∧ fig.coloraxis.cmax = some 7) ∧
    (∃ fig, imshow2D [[(2 : ℚ)]] none (some 3) none none none none
        = .ok fig ∧
      fig.coloraxis.cmin = some 2 ∧ fig.coloraxis.cmax = some 3) :=
  ⟨C6_thm.1 [[(7 : ℚ)]] 10 7 none none none rfl,
   C6_thm.2 [[(2 : ℚ)]] 3 2 none none none rfl⟩

/-- C7: `imshow` raises a `ValueError` exactly when the array is not 2-d
and not 3-d with trailing dimension 3 or 4; the error message embeds the
offending shape (shape (4, 5, 2) is such a failing input). -/
theorem C7_thm :
    (∀ shape : List ℕ,
      (∃ e, imshowDispatch shape = .error e) ↔
        ¬(shape.length = 2 ∨ (shape.length = 3 ∧
          (shape.getLast? = some 3 ∨ shape.getLast? = some 4))))
    ∧ (∀ (shape : List ℕ) (e : String), imshowDispatch shape = .error e →
        e = "px.imshow only accepts 2D single-channel, RGB or RGBA images. " ++
          "An image of shape " ++ pyTupleStr shape ++ " was provided")
    ∧ imshowDispatch [4, 5, 2] = .error (shapeErrMsg [4, 5, 2])
    ∧ pyTupleStr [4, 5, 2] = "(4, 5, 2)" := by
  refine ⟨?_, ?_, rfl, rfl⟩
  · intro shape
    constructor
    · rintro ⟨e, he⟩ hcond
      rcases hcond with h2 | ⟨h3, hl | hl⟩
      · simp [imshowDispatch, h2] at he
      · simp [imshowDispatch, h3, hl] at he
      · simp [imshowDispatch, h3, hl] at he
    · intro hcond
      push_neg at hcond
      obtain ⟨h2, h34⟩ := hcond
      refine ⟨shapeErrMsg shape, ?_⟩
      rw [imshowDispatch, if_neg h2, if_neg ?_]
      intro hand
      rcases hand.2 with h | h
      · exact (h34 hand.1).1 h
      · exact (h34 hand.1).2 h
  · intro shape e h
    rw [imshowDispatch] at h
    split at h
    · cases h
    · split at h
      · cases h
      · cases h
        rfl

/-- C7 witness: the theorem applied at the shape (4, 5, 2). -/
theorem C7_witness :
    (∃ e, imshowDispatch [4, 5, 2] = .error e) ∧
    shapeErrMsg [4, 5, 2]
      = "px.imshow only accepts 2D single-channel, RGB or RGBA images. " ++
        "An image of shape " ++ pyTupleStr [4, 5, 2] ++ " was provided" :=
  ⟨(C7_thm.1 [4, 5, 2]).mpr (by decide),
   C7_thm.2.1 [4, 5, 2] (shapeErrMsg [4, 5, 2]) rfl⟩

/-- C8: the boolean coercion of lines 200-202 remaps every `False` element
to 0 and every `True` element to 255; in particular `[[True, False]]`
normalizes to `[[255, 0]]`. -/
theorem C8_thm :
    bool_to_uint8 [[true, false]] = [[255, 0]] ∧
    ∀ img, bool_to_uint8 img
      = img.map (fun row => row.map fun b => if b then 255 else 0) := by
  refine ⟨rfl, fun img => ?_⟩
  have hf : (fun b => (255 * (if b then 1 else 0)) % 256)
      = (fun b : Bool => if b then (255 : ℕ) else 0) := by
    funext b
    cases b <;> rfl
  simp only [bool_to_uint8, hf]

/-- C9: `imshow` does not mutate the input array owned by the caller: the
boolean-to-intensity coercion allocates fresh arrays (`astype` copies, the
multiplication allocates the product) and only rebinds the local name, so
every array present on the heap before the call is unchanged after it. -/
theorem C9_thm :
    ∀ (h : Heap) (r i : ℕ), i < h.length →
      ((imshow_normalize h r).1)[i]? = h[i]? := by
  intro h r i hi
  rw [imshow_normalize]
  cases hr : h[r]? with
  | none => rfl
  | some a =>
    dsimp only
    by_cases hb : a.dtype = NpDtype.bool_
    · rw [if_pos hb]
      simp only [heapAlloc]
      rw [List.getElem?_concat_length]
      have h1 : i < (h ++ [astype_uint8_copy a]).length := by
        simp only [List.length_append, List.length_cons, List.length_nil]
        omega
      rw [List.getElem?_append_left h1, List.getElem?_append_left hi]
    · rw [if_neg hb]

/-- C9 witness: the theorem applied to a one-array heap holding a boolean
image. -/
theorem C9_witness :
    0 < ([⟨NpDtype.bool_, [1, 0]⟩] : Heap).length ∧
    ((imshow_normalize [⟨NpDtype.bool_, [1, 0]⟩] 0).1)[0]?
      = ([⟨NpDtype.bool_, [1, 0]⟩] : Heap)[0]? :=
  ⟨by decide, C9_thm [⟨NpDtype.bool_, [1, 0]⟩] 0 0 (by decide)⟩

/-- C10: calling with `labels=None` skips the override block of lines
186-192 entirely, which is exactly what an empty labels dict does: no
axis, colorbar or hover name is overridden and the resulting 2-d figure is
identical. -/
theorem C10_thm :
    (∀ (x0 y0 : Option String) (z0 : String),
      applyLabels none x0 y0 z0 = applyLabels (some []) x0 y0 z0)
    ∧ (∀ (x0 y0 : Option String) (z0 : String),
      applyLabels none x0 y0 z0 = (x0, y0, z0))
    ∧ (∀ (img : List (List ℚ)) (zmin zmax : Option ℚ) (o : Option String)
       (rc : Option (ℚ × ℚ)) (cmid : Option ℚ),
      imshow2D img zmin zmax o none rc cmid
        = imshow2D img zmin zmax o (some []) rc cmid) :=
  ⟨fun _ _ _ => rfl, fun _ _ _ => rfl, fun _ _ _ _ _ _ => rfl⟩
